import Mathlib

/-!
Verification of the process and shell resolution utility
(`src/web/src/server/pty/process-utils.ts`, class `ProcessUtils`).

The TypeScript code is effectful: it reads `/proc/version`, scans environment
variables, spawns probe processes (`which`, `tasklist`, `taskkill`, shell
probes), delivers signals, sleeps, and logs.  The shallow embedding makes all
of that explicit:

* `Env` holds the read-only ambient state of the Node process
  (`process.platform`, `/proc/version` contents, environment variables).
* `World` holds oracles for the outcomes of external probes
  (`spawnSync` results, `process.kill` outcomes, `os.userInfo().shell`).
  A `spawnSync`/`kill` oracle returning a failure constructor models the
  corresponding JavaScript exception being thrown and caught.
* `Effect` is a trace of the observable side effects a call performs;
  every modelled operation returns its result together with its trace,
  so "performs no probe / does not sleep / logs a warning" are provable
  statements about the trace.
* The class-level memoized field `ProcessUtils._isWSL2` is threaded
  explicitly as an `Option Bool` cache value.
* JavaScript truthiness of an optional string (`undefined`/`""` falsy) is
  modelled by `truthy`; `String.prototype.includes` by `jsIncludes`.

Debug-level log lines are omitted from the traces; `log`/`warn` entries that
the specification talks about (the WSL1 warnings) are kept verbatim.
-/

namespace ProcessUtils

/-- The value of `process.platform` as far as the code inspects it. -/
inductive OSPlatform where
  | win32
  | darwin
  | linux
  | otherOS (name : String)
deriving DecidableEq, Repr

/-- Result type of `ProcessUtils.getPlatformType`: the raw platform string,
or `'wsl2'` when WSL2 was detected.  A platform string other than the three
listed ones is passed through unchanged by the cast in the source. -/
inductive PlatformType where
  | win32
  | darwin
  | linux
  | wsl2
  | otherOS (name : String)
deriving DecidableEq, Repr

/-- A Node.js signal argument: either a signal number (e.g. `0`) or a signal
name (e.g. `'SIGTERM'`). -/
inductive JSSignal where
  | num (n : Int)
  | name (s : String)
deriving DecidableEq, Repr

/-- Outcome of a `process.kill` call: success, or an exception carrying an
`errno` code string (`'EPERM'`, `'ESRCH'`, ...). -/
inductive KillOutcome where
  | ok
  | err (code : String)
deriving DecidableEq, Repr

/-- Relevant part of a `spawnSync` result: exit status (possibly `null`) and
captured stdout (possibly `null`). -/
structure SpawnResult where
  status : Option Int
  stdout : Option String
deriving DecidableEq, Repr

/-- Observable side effects of the modelled operations. -/
inductive Effect where
  | fsExists (path : String)
  | fsRead (path : String)
  | envScan
  | spawn (cmd : String) (args : List String)
  | kill (pid : Int) (signal : JSSignal)
  | sleep (ms : Nat)
  | log (msg : String)
  | warn (msg : String)
deriving DecidableEq, Repr

/-- Ambient read-only state of the Node process. `procVersion = none` models
`/proc/version` not existing (`fs.existsSync` returning `false`). -/
structure Env where
  platform : OSPlatform
  procVersion : Option String
  envSHELL : Option String
  envWSLDistroName : Option String
  envWSLInterop : Option String
  envWSLENV : Option String
  envSystemRoot : Option String
  envProgramFiles : Option String
  envComSpec : Option String

/-- Oracles for the outcomes of external interactions.  `spawnSync` returning
`none` models the call throwing (every call site wraps it in `try`/`catch`);
`userInfoShell = none` models `os.userInfo()` failing or reporting no shell. -/
structure World where
  spawnSync : String → List String → Option SpawnResult
  kill : Int → JSSignal → KillOutcome
  userInfoShell : Option String

/-- JavaScript truthiness of `string | undefined`: `undefined` and `""` are
falsy. -/
def truthy : Option String → Bool
  | none => false
  | some s => decide (s ≠ "")

/-- JavaScript `s.includes(sub)`: `sub` occurs contiguously in `s`. -/
def jsIncludes (s sub : String) : Bool :=
  decide (sub.toList <:+: s.toList)

/-- JavaScript `s.toLowerCase()` over the ASCII range relevant to the kernel
markers: lower-case each character. -/
def jsToLower (s : String) : String :=
  ⟨s.data.map Char.toLower⟩

/-- Whitespace characters stripped by JavaScript `s.trim()` (the ASCII ones
that can occur in probe output). -/
def isJSWhitespace (c : Char) : Bool :=
  c = ' ' || c = '\t' || c = '\n' || c = '\r'

/-- JavaScript `s.trim()`: strip leading and trailing whitespace. -/
def jsTrim (s : String) : String :=
  ⟨((s.data.dropWhile isJSWhitespace).reverse.dropWhile isJSWhitespace).reverse⟩

/-! ### WSL2 detection (`isWSL2`, lines 29-83) and `getPlatformType` -/

/-- Fallback branch of `isWSL2` (lines 62-77): check the WSL environment
variables `WSL_DISTRO_NAME`, `WSL_INTEROP`, `WSLENV`.  `effs` are the effects
already performed by the `/proc/version` probe. -/
def wslEnvFallback (e : Env) (effs : List Effect) : Bool × List Effect :=
  if truthy e.envWSLDistroName || truthy e.envWSLInterop || truthy e.envWSLENV then
    (false, effs ++ [Effect.envScan,
      Effect.log "WSL environment detected via environment variables",
      Effect.warn "Unable to confirm WSL2 - this may be WSL1 which is not supported"])
  else
    (false, effs ++ [Effect.envScan])

/-- The uncached body of `isWSL2` (lines 34-82).  Every path of the source
stores the value it returns into `ProcessUtils._isWSL2`, so the caching
wrapper `isWSL2` can record the returned value uniformly. -/
def isWSL2Uncached (e : Env) : Bool × List Effect :=
  if e.platform = OSPlatform.linux then
    match e.procVersion with
    | some content =>
      let v := jsToLower content
      let isWSL := jsIncludes v "microsoft" || jsIncludes v "wsl"
      let isWSL2v := jsIncludes v "wsl2"
      if isWSL && isWSL2v then
        (true, [Effect.fsExists "/proc/version", Effect.fsRead "/proc/version",
                Effect.log "WSL2 environment detected"])
      else if isWSL && !isWSL2v then
        (false, [Effect.fsExists "/proc/version", Effect.fsRead "/proc/version",
                 Effect.warn "WSL1 detected - WSL1 is not supported. Please upgrade to WSL2.",
                 Effect.warn "Run \x22wsl --set-version <distro> 2\x22 to upgrade to WSL2"])
      else
        wslEnvFallback e [Effect.fsExists "/proc/version", Effect.fsRead "/proc/version"]
    | none => wslEnvFallback e [Effect.fsExists "/proc/version"]
  else
    (false, [])

/-- `ProcessUtils.isWSL2` (lines 29-83) with the memoized field
`ProcessUtils._isWSL2` threaded explicitly: returns the detection result, the
new cache value, and the effect trace of this call. -/
def isWSL2 (e : Env) (cache : Option Bool) : Bool × Option Bool × List Effect :=
  match cache with
  | some b => (b, some b, [])
  | none =>
    let u := isWSL2Uncached e
    (u.1, some u.1, u.2)

/-- The cast `process.platform as 'win32' | 'darwin' | 'linux'` (line 93):
the raw platform string is passed through unchanged. -/
def castPlatform : OSPlatform → PlatformType
  | OSPlatform.win32 => PlatformType.win32
  | OSPlatform.darwin => PlatformType.darwin
  | OSPlatform.linux => PlatformType.linux
  | OSPlatform.otherOS s => PlatformType.otherOS s

/-- `ProcessUtils.getPlatformType` (lines 89-94). -/
def getPlatformType (e : Env) (cache : Option Bool) :
    PlatformType × Option Bool × List Effect :=
  let r := isWSL2 e cache
  (if r.1 then PlatformType.wsl2 else castPlatform e.platform, r.2.1, r.2.2)

/-! ### Process liveness (`isProcessRunning` and helpers, lines 99-167) -/

/-- The argument vector `['/FI', `PID eq ${pid}`, '/NH', '/FO', 'CSV']` of the
`tasklist` probe (line 125). -/
def tasklistArgs (pid : Int) : List String :=
  ["/FI", "PID eq " ++ toString pid, "/NH", "/FO", "CSV"]

/-- `ProcessUtils.isProcessRunningWindows` (lines 122-145): spawn `tasklist`
filtered by the pid and look for the quoted pid token `"${pid}"` in the CSV
output. -/
def isProcessRunningWindows (w : World) (pid : Int) : Bool × List Effect :=
  let effs := [Effect.spawn "tasklist" (tasklistArgs pid)]
  match w.spawnSync "tasklist" (tasklistArgs pid) with
  | none => (false, effs)
  | some r =>
    if r.status = some 0 ∧ truthy r.stdout then
      (jsIncludes (r.stdout.getD "") ("\x22" ++ toString pid ++ "\x22"), effs)
    else
      (false, effs)

/-- `ProcessUtils.isProcessRunningUnix` (lines 150-167): deliver the null
signal; success and `EPERM` mean the process exists, anything else means it
does not. -/
def isProcessRunningUnix (w : World) (pid : Int) : Bool × List Effect :=
  let effs := [Effect.kill pid (JSSignal.num 0)]
  match w.kill pid (JSSignal.num 0) with
  | KillOutcome.ok => (true, effs)
  | KillOutcome.err code => (if code = "EPERM" then true else false, effs)

/-- `ProcessUtils.isProcessRunning` (lines 99-117). -/
def isProcessRunning (e : Env) (w : World) (cache : Option Bool) (pid : Int) :
    Bool × Option Bool × List Effect :=
  if pid ≤ 0 then
    (false, cache, [])
  else
    let p := getPlatformType e cache
    if p.1 = PlatformType.win32 then
      let r := isProcessRunningWindows w pid
      (r.1, p.2.1, p.2.2 ++ r.2)
    else
      let r := isProcessRunningUnix w pid
      (r.1, p.2.1, p.2.2 ++ r.2)

/-- `ProcessUtils.getProcessInfo` (lines 173-182). -/
def getProcessInfo (e : Env) (w : World) (cache : Option Bool) (pid : Int) :
    Option (Int × Bool) × Option Bool × List Effect :=
  let r := isProcessRunning e w cache pid
  if r.1 then
    (some (pid, true), r.2.1, r.2.2)
  else
    (none, r.2.1, r.2.2)

/-- `ProcessUtils.killProcess` (lines 188-219).  Note that it branches on the
raw `process.platform`, not on `getPlatformType`, and never consults the WSL2
cache. -/
def killProcess (e : Env) (w : World) (pid : Int) (signal : JSSignal) :
    Bool × List Effect :=
  if pid ≤ 0 then
    (false, [])
  else if e.platform = OSPlatform.win32 then
    let args := ["/PID", toString pid, "/F"]
    match w.spawnSync "taskkill" args with
    | none => (false, [Effect.spawn "taskkill" args])
    | some r =>
      (if r.status = some 0 then true else false, [Effect.spawn "taskkill" args])
  else
    match w.kill pid signal with
    | KillOutcome.ok => (true, [Effect.kill pid signal])
    | KillOutcome.err _ => (false, [Effect.kill pid signal])

/-! ### `waitForProcessExit` (lines 225-242)

The loop samples `Date.now()`; the model uses an idealized clock in which the
elapsed time after `k` sleeps is exactly `k * 100` ms.  `alive t` is the
result of `ProcessUtils.isProcessRunning(pid)` when sampled at elapsed time
`t`.  The structural `fuel` argument only bounds the recursion; it is chosen
large enough in `waitForProcessExit` that it never runs out before the
timeout check does (each iteration advances the clock by 100 ms). -/

/-- One polling loop of `waitForProcessExit`: while `t < timeoutMs`, check
liveness (returning `true` as soon as the process is gone), otherwise sleep
100 ms and retry. -/
def waitLoop (alive : Nat → Bool) (timeoutMs : Nat) : Nat → Nat → Bool × List Effect
  | _, 0 => (false, [])
  | t, fuel + 1 =>
    if t < timeoutMs then
      if alive t then
        let r := waitLoop alive timeoutMs (t + 100) fuel
        (r.1, Effect.sleep 100 :: r.2)
      else
        (true, [])
    else
      (false, [])

/-- `ProcessUtils.waitForProcessExit` (lines 225-242): poll liveness every
100 ms until exit is observed (`true`) or the elapsed time reaches the
timeout (`false`). -/
def waitForProcessExit (alive : Nat → Bool) (timeoutMs : Nat) : Bool × List Effect :=
  waitLoop alive timeoutMs 0 (timeoutMs + 1)

/-! ### Shell and command resolution (lines 247-491) -/

/-- The fixed list of known shell names (line 249). -/
def shells : List String :=
  ["bash", "zsh", "sh", "fish", "dash", "ksh", "tcsh", "csh"]

/-- The recognized interactivity/login flags (line 255). -/
def interactiveFlags : List String :=
  ["-i", "--interactive", "-l", "--login"]

/-- `ProcessUtils.isInteractiveShellCommand` (lines 247-262). -/
def isInteractiveShellCommand (cmdName : String) (args : List String) : Bool :=
  let isShell := shells.any fun shell =>
    cmdName = shell || cmdName.endsWith ("/" ++ shell)
  if !isShell then
    false
  else if args.length = 0 then
    true
  else
    args.any fun arg => interactiveFlags.contains arg

/-- Result of `resolveCommand`: the executable, its argument vector, and
whether the command is routed through a shell. -/
structure ResolvedCommand where
  command : String
  args : List String
  useShell : Bool
deriving DecidableEq, Repr

/-- Whether a `spawnSync` probe succeeded with exit status `0`
(pattern `result.status === 0` at the probe call sites). -/
def spawnOk (w : World) (cmd : String) (args : List String) : Bool :=
  match w.spawnSync cmd args with
  | some r => decide (r.status = some 0)
  | none => false

/-- `process.env.SystemRoot || 'C:\\Windows'` and friends: the value if
truthy, else the default. -/
def envOr (o : Option String) (dflt : String) : String :=
  if truthy o then o.getD dflt else dflt

/-- The fixed legacy Windows PowerShell path (lines 408-414). -/
def powershellPath (e : Env) : String :=
  envOr e.envSystemRoot "C:\\Windows" ++
    "\\System32\\WindowsPowerShell\\v1.0\\powershell.exe"

/-- The Git-for-Windows bash candidate locations (lines 429-433). -/
def gitBashPaths (e : Env) : List String :=
  ["C:\\Program Files\\Git\\bin\\bash.exe",
   "C:\\Program Files (x86)\\Git\\bin\\bash.exe",
   envOr e.envProgramFiles "C:\\Program Files" ++ "\\Git\\bin\\bash.exe"]

/-- Probe the Git Bash candidates in order with `<path> -c 'echo test'`
(lines 434-447); first candidate exiting with status `0` wins. -/
def findGitBash (w : World) : List String → Option String × List Effect
  | [] => (none, [])
  | p :: rest =>
    let eff := Effect.spawn p ["-c", "echo test"]
    if spawnOk w p ["-c", "echo test"] then
      (some p, [eff])
    else
      let r := findGitBash w rest
      (r.1, eff :: r.2)

/-- Probe the common Unix shell candidates in order with `test -x <shell>`
(lines 470-483); first shell that is executable wins. -/
def findExecShell (w : World) : List String → Option String × List Effect
  | [] => (none, [])
  | p :: rest =>
    let eff := Effect.spawn "test" ["-x", p]
    if spawnOk w "test" ["-x", p] then
      (some p, [eff])
    else
      let r := findExecShell w rest
      (r.1, eff :: r.2)

/-- Windows branch of `getUserShell` (lines 390-450): PowerShell Core, then
legacy PowerShell, then Git Bash, then `%ComSpec%`/`cmd.exe`. -/
def getUserShellWin (e : Env) (w : World) : String × List Effect :=
  let e1 := Effect.spawn "pwsh" ["-Command", "echo test"]
  if spawnOk w "pwsh" ["-Command", "echo test"] then
    ("pwsh", [e1])
  else
    let pp := powershellPath e
    let e2 := Effect.spawn pp ["-Command", "echo test"]
    if spawnOk w pp ["-Command", "echo test"] then
      (pp, [e1, e2])
    else
      let r := findGitBash w (gitBashPaths e)
      match r.1 with
      | some p => (p, e1 :: e2 :: r.2)
      | none => (envOr e.envComSpec "cmd.exe", e1 :: e2 :: r.2)

/-- Unix branch of `getUserShell` (lines 451-486): `os.userInfo().shell`,
then the platform-ordered common shell list, then `/bin/sh`. -/
def getUserShellUnix (pt : PlatformType) (w : World) : String × List Effect :=
  if truthy w.userInfoShell then
    (w.userInfoShell.getD "", [])
  else
    let commonShells :=
      if pt = PlatformType.wsl2 then
        ["/bin/bash", "/bin/zsh", "/usr/bin/bash", "/usr/bin/zsh", "/bin/sh"]
      else
        ["/bin/zsh", "/bin/bash", "/usr/bin/zsh", "/usr/bin/bash", "/bin/sh"]
    let r := findExecShell w commonShells
    match r.1 with
    | some s => (s, r.2)
    | none => ("/bin/sh", r.2)

/-- `ProcessUtils.getUserShell` (lines 381-491). -/
def getUserShell (e : Env) (w : World) (cache : Option Bool) :
    String × Option Bool × List Effect :=
  if truthy e.envSHELL then
    (e.envSHELL.getD "", cache, [])
  else
    let p := getPlatformType e cache
    if p.1 = PlatformType.win32 then
      let r := getUserShellWin e w
      (r.1, p.2.1, p.2.2 ++ r.2)
    else if p.1 = PlatformType.wsl2 ∨ p.1 = PlatformType.linux ∨
        p.1 = PlatformType.darwin then
      let r := getUserShellUnix p.1 w
      (r.1, p.2.1, p.2.2 ++ r.2)
    else
      ("/bin/sh", p.2.1, p.2.2)

/-- The PATH-lookup utility used by `resolveCommand` (line 277):
`where` on Windows, `which` elsewhere. -/
def whichCommandFor (e : Env) : String :=
  if e.platform = OSPlatform.win32 then "where" else "which"

/-- The PATH probe of `resolveCommand` (lines 279-297): did
`which`/`where` exit with status `0` and produce non-blank stdout?
An oracle value of `none` models `spawnSync` throwing, which the source
catches and treats as not found. -/
def whichProbeFound (e : Env) (w : World) (cmdName : String) : Bool :=
  match w.spawnSync (whichCommandFor e) [cmdName] with
  | some r =>
    decide (r.status = some 0) && truthy r.stdout &&
      (match r.stdout with
       | some s => decide (jsTrim s ≠ "")
       | none => false)
  | none => false

/-- `ProcessUtils.resolveCommand` (lines 268-375).  The `Except` result
models the single hard failure (`throw new Error('No command provided')`)
on an empty command vector. -/
def resolveCommand (e : Env) (w : World) (cache : Option Bool)
    (command : List String) :
    Except String ResolvedCommand × Option Bool × List Effect :=
  match command with
  | [] => (Except.error "No command provided", cache, [])
  | cmdName :: cmdArgs =>
    let probeEff := [Effect.spawn (whichCommandFor e) [cmdName]]
    if whichProbeFound e w cmdName then
      (Except.ok ⟨cmdName, cmdArgs, false⟩, cache, probeEff)
    else
      let us := getUserShell e w cache
      let userShell := us.1
      let isCommand := !isInteractiveShellCommand cmdName cmdArgs
      let p := getPlatformType e us.2.1
      let effs := probeEff ++ us.2.2 ++ p.2.2
      let joined := String.intercalate " " command
      if p.1 = PlatformType.win32 then
        if jsIncludes userShell "bash" then
          if isCommand then
            (Except.ok ⟨userShell, ["-c", joined], true⟩, p.2.1, effs)
          else
            (Except.ok ⟨userShell, ["-i", "-c", joined], true⟩, p.2.1, effs)
        else if jsIncludes userShell "pwsh" || jsIncludes userShell "powershell" then
          (Except.ok ⟨userShell, ["-NoLogo", "-Command", joined], true⟩, p.2.1, effs)
        else
          (Except.ok ⟨userShell, ["/C", joined], true⟩, p.2.1, effs)
      else if p.1 = PlatformType.wsl2 ∨ p.1 = PlatformType.linux ∨
          p.1 = PlatformType.darwin then
        if isCommand then
          (Except.ok ⟨userShell, ["-c", joined], true⟩, p.2.1, effs)
        else
          (Except.ok ⟨userShell, ["-i", "-c", joined], true⟩, p.2.1, effs)
      else
        (Except.ok ⟨cmdName, cmdArgs, false⟩, p.2.1, effs)

/-! ### Concrete environments and worlds used to instantiate the theorems -/

/-- A plain Linux environment: no `/proc/version`, no relevant variables. -/
def sampleLinuxEnv : Env :=
  { platform := OSPlatform.linux, procVersion := none, envSHELL := none,
    envWSLDistroName := none, envWSLInterop := none, envWSLENV := none,
    envSystemRoot := none, envProgramFiles := none, envComSpec := none }

/-- A world in which every external probe fails and every signal delivery
reports `ESRCH` (no such process). -/
def deadWorld : World :=
  { spawnSync := fun _ _ => none,
    kill := fun _ _ => KillOutcome.err "ESRCH",
    userInfoShell := none }

/-- A world in which null-signal delivery succeeds. -/
def okKillWorld : World :=
  { deadWorld with kill := fun _ _ => KillOutcome.ok }

/-- A world in which signal delivery fails with `EPERM`. -/
def epermWorld : World :=
  { deadWorld with kill := fun _ _ => KillOutcome.err "EPERM" }

/-- A world in which `which bash` resolves successfully. -/
def whichBashWorld : World :=
  { deadWorld with
    spawnSync := fun c a =>
      if c = "which" ∧ a = ["bash"] then
        some ⟨some 0, some "/bin/bash\n"⟩
      else
        none }

/-- A `tasklist /FI "PID eq ..." /NH /FO CSV` listing containing exactly one
row, whose PID column is `q`. -/
def csvListing (q : Nat) : String :=
  "\x22node.exe\x22,\x22" ++ Nat.repr q ++ "\x22"

/-- A world whose `tasklist` always succeeds and returns the one-row listing
for pid `q`. -/
def tasklistWorld (q : Nat) : World :=
  { deadWorld with
    spawnSync := fun c _ =>
      if c = "tasklist" then some ⟨some 0, some (csvListing q)⟩ else none }

/-! ## Helper lemmas -/

/-- A cache hit returns the cached value, re-caches it, and performs no
effect. -/
theorem isWSL2_cached (e : Env) (b : Bool) : isWSL2 e (some b) = (b, some b, []) :=
  rfl

/-- After any `isWSL2` call the cache holds exactly the returned value. -/
theorem isWSL2_cache_eq (e : Env) (c : Option Bool) :
    (isWSL2 e c).2.1 = some (isWSL2 e c).1 := by
  cases c <;> rfl

/-- The cache component of `getPlatformType` is that of `isWSL2`. -/
theorem getPlatformType_cache_eq (e : Env) (c : Option Bool) :
    (getPlatformType e c).2.1 = (isWSL2 e c).2.1 :=
  rfl

/-- The platform value computed by `getPlatformType`. -/
theorem getPlatformType_val (e : Env) (c : Option Bool) :
    (getPlatformType e c).1 =
      (if (isWSL2 e c).1 then PlatformType.wsl2 else castPlatform e.platform) :=
  rfl

/-- Re-running `getPlatformType` on the cache produced by a previous call
returns the same platform value, re-caches the same flag, and performs no
effect; the underlying probe sources may differ arbitrarily as long as
`process.platform` is unchanged (it cannot change within one process). -/
theorem getPlatformType_stable (e1 e2 : Env) (c : Option Bool)
    (hp : e2.platform = e1.platform) :
    getPlatformType e2 (getPlatformType e1 c).2.1 =
      ((getPlatformType e1 c).1, (getPlatformType e1 c).2.1, []) := by
  rw [getPlatformType_cache_eq, isWSL2_cache_eq e1 c]
  show getPlatformType e2 (some (isWSL2 e1 c).1) = _
  rw [getPlatformType_val]
  unfold getPlatformType
  rw [isWSL2_cached]
  simp [hp]

/-- `getUserShell` either leaves the cache alone (explicit `SHELL` variable)
or passes along the cache of its own `getPlatformType` call. -/
theorem getUserShell_cache_cases (e : Env) (w : World) (c : Option Bool) :
    (getUserShell e w c).2.1 = c ∨
    (getUserShell e w c).2.1 = (getPlatformType e c).2.1 := by
  unfold getUserShell
  dsimp only
  split
  · exact Or.inl rfl
  · split
    · exact Or.inr rfl
    · split
      · exact Or.inr rfl
      · exact Or.inr rfl

/-- Calling `getPlatformType` after `getUserShell` yields the same platform
value as calling it on the original cache. -/
theorem getUserShell_platform_stable (e : Env) (w : World) (c : Option Bool) :
    (getPlatformType e (getUserShell e w c).2.1).1 = (getPlatformType e c).1 := by
  rcases getUserShell_cache_cases e w c with h | h
  · rw [h]
  · rw [h]
    have := getPlatformType_stable e e c rfl
    rw [this]

/-- Every non-empty command vector resolves to a plan (`Except.ok`): no
branch of `resolveCommand` after the emptiness check raises. -/
theorem resolveCommand_cons_ok (e : Env) (w : World) (c : Option Bool)
    (hd : String) (tl : List String) :
    ∃ p, (resolveCommand e w c (hd :: tl)).1 = Except.ok p := by
  simp only [resolveCommand]
  split
  · exact ⟨_, rfl⟩
  · split
    · split
      · split
        · exact ⟨_, rfl⟩
        · exact ⟨_, rfl⟩
      · split
        · exact ⟨_, rfl⟩
        · exact ⟨_, rfl⟩
    · split
      · split
        · exact ⟨_, rfl⟩
        · exact ⟨_, rfl⟩
      · exact ⟨_, rfl⟩

/-- `Nat.digitChar` of a value below ten is an ASCII digit. -/
theorem digitChar_isDigit {m : Nat} (h : m < 10) :
    (Nat.digitChar m).isDigit = true := by
  interval_cases m <;> rfl

/-- All characters accumulated by `Nat.toDigitsCore` in base 10 are digits. -/
theorem toDigitsCore_all_digits :
    ∀ (f n : Nat) (ds : List Char), (∀ c ∈ ds, c.isDigit = true) →
      ∀ c ∈ Nat.toDigitsCore 10 f n ds, c.isDigit = true := by
  intro f
  induction f with
  | zero => intro n ds h c hc; exact h c hc
  | succ f ih =>
    intro n ds h c hc
    rw [Nat.toDigitsCore] at hc
    have hd : ∀ x ∈ Nat.digitChar (n % 10) :: ds, x.isDigit = true := by
      intro x hx
      rcases List.mem_cons.mp hx with rfl | hx
      · exact digitChar_isDigit (Nat.mod_lt _ (by norm_num))
      · exact h x hx
    split at hc
    · exact hd c hc
    · exact ih _ _ hd c hc

/-- Every character of the decimal representation of a natural number is a
digit. -/
theorem repr_all_digits (n : Nat) :
    ∀ c ∈ (Nat.repr n).toList, c.isDigit = true := by
  show ∀ c ∈ Nat.toDigits 10 n, c.isDigit = true
  rw [Nat.toDigits]
  exact toDigitsCore_all_digits _ _ _ (by simp)

/-- `Nat.toDigitsCore` never shrinks its accumulator. -/
theorem toDigitsCore_length_le :
    ∀ (f n : Nat) (ds : List Char),
      ds.length ≤ (Nat.toDigitsCore 10 f n ds).length := by
  intro f
  induction f with
  | zero => intro n ds; rw [Nat.toDigitsCore]
  | succ f ih =>
    intro n ds
    rw [Nat.toDigitsCore]
    split
    · simp
    · calc ds.length ≤ (Nat.digitChar (n % 10) :: ds).length := by simp
        _ ≤ _ := ih _ _

/-- The decimal representation of a natural number is never empty. -/
theorem repr_toList_ne_nil (n : Nat) : (Nat.repr n).toList ≠ [] := by
  show Nat.toDigits 10 n ≠ []
  rw [Nat.toDigits, Nat.toDigitsCore]
  split
  · simp
  · intro h
    have := toDigitsCore_length_le n (n / 10) [Nat.digitChar (n % 10)]
    rw [h] at this
    simp at this

/-- A pattern starting with a quote cannot start at a non-quote character:
scanning may skip it. -/
theorem peel_char {rest : List Char} {c : Char} (hc : c ≠ '\x22')
    (l : List Char) :
    ('\x22' :: rest <:+: c :: l) ↔ ('\x22' :: rest <:+: l) := by
  rw [List.infix_cons_iff]
  constructor
  · rintro (hpre | h)
    · rw [List.cons_prefix_cons] at hpre
      exact absurd hpre.1.symm hc
    · exact h
  · exact Or.inr

/-- A quote-then-digit pattern cannot start at a quote followed by a
non-digit: scanning may skip the quote. -/
theorem peel_quote {a : Char} (ha : a.isDigit = true) {c : Char}
    (hc : c.isDigit = false) (rest l : List Char) :
    ('\x22' :: a :: rest <:+: '\x22' :: c :: l) ↔
      ('\x22' :: a :: rest <:+: c :: l) := by
  rw [List.infix_cons_iff]
  constructor
  · rintro (hpre | h)
    · rw [List.cons_prefix_cons, List.cons_prefix_cons] at hpre
      rw [hpre.2.1] at ha
      rw [ha] at hc
      cases hc
    · exact h
  · exact Or.inr

/-- Two quote-terminated digit strings in prefix relation are equal. -/
theorem digits_append_quote_pref :
    ∀ (dp dq : List Char), (∀ c ∈ dp, c.isDigit = true) →
      (∀ c ∈ dq, c.isDigit = true) →
      (dp ++ ['\x22'] <+: dq ++ ['\x22']) → dp = dq := by
  intro dp
  induction dp with
  | nil =>
    intro dq _ hdq h
    cases dq with
    | nil => rfl
    | cons b dq' =>
      rw [List.nil_append, List.cons_append, List.cons_prefix_cons] at h
      have hb : b.isDigit = true := hdq b (by simp)
      rw [← h.1] at hb
      cases hb
  | cons a dp' ih =>
    intro dq hdp hdq h
    cases dq with
    | nil =>
      rw [List.cons_append, List.nil_append, List.cons_prefix_cons] at h
      have ha : a.isDigit = true := hdp a (by simp)
      rw [h.1] at ha
      cases ha
    | cons b dq' =>
      rw [List.cons_append, List.cons_append, List.cons_prefix_cons] at h
      have := ih dq' (fun c hc => hdp c (by simp [hc]))
        (fun c hc => hdq c (by simp [hc])) h.2
      rw [h.1, this]

/-- A quoted pattern cannot occur inside a quote-terminated digit string
(there is no interior quote for it to start at). -/
theorem quoted_not_infix_digits :
    ∀ (dq dp : List Char), (∀ c ∈ dq, c.isDigit = true) →
      ¬ ('\x22' :: (dp ++ ['\x22']) <:+: dq ++ ['\x22']) := by
  intro dq
  induction dq with
  | nil =>
    intro dp _ h
    rw [List.nil_append, List.infix_cons_iff] at h
    rcases h with hpre | h
    · rw [List.cons_prefix_cons] at hpre
      have := List.prefix_nil.mp hpre.2
      simp at this
    · rw [List.infix_nil] at h
      cases h
  | cons b dq' ih =>
    intro dp hdq h
    rw [List.cons_append, List.infix_cons_iff] at h
    rcases h with hpre | h
    · rw [List.cons_prefix_cons] at hpre
      have hb : b.isDigit = true := hdq b (by simp)
      rw [← hpre.1] at hb
      cases hb
    · exact ih dp (fun c hc => hdq c (by simp [hc])) h

/-- The quoted digit token `"dp"` does not occur in the CSV row
`"node.exe","dq"` when `dp ≠ dq`: the pattern's leading quote must align
with a quote of the row, and the only quote followed by digits opens the
PID column, where `digits_append_quote_pref` forces `dp = dq`. -/
theorem quoted_pid_not_infix (dp dq : List Char) (hdpne : dp ≠ [])
    (hdp : ∀ c ∈ dp, c.isDigit = true) (hdq : ∀ c ∈ dq, c.isDigit = true)
    (hne : dp ≠ dq) :
    ¬ ('\x22' :: (dp ++ ['\x22']) <:+:
       '\x22' :: 'n' :: 'o' :: 'd' :: 'e' :: '.' :: 'e' :: 'x' :: 'e' :: '\x22' :: ',' :: '\x22' ::
         (dq ++ ['\x22'])) := by
  obtain ⟨a, dp', rfl⟩ := List.exists_cons_of_ne_nil hdpne
  have ha : a.isDigit = true := hdp a (by simp)
  intro h
  rw [List.cons_append] at h
  rw [peel_quote ha (by decide) _ _] at h
  rw [peel_char (by decide) _] at h
  rw [peel_char (by decide) _] at h
  rw [peel_char (by decide) _] at h
  rw [peel_char (by decide) _] at h
  rw [peel_char (by decide) _] at h
  rw [peel_char (by decide) _] at h
  rw [peel_char (by decide) _] at h
  rw [peel_char (by decide) _] at h
  rw [peel_quote ha (by decide) _ _] at h
  rw [peel_char (by decide) _] at h
  rcases List.infix_cons_iff.mp h with hpre | hinf
  · rw [List.cons_prefix_cons] at hpre
    have heq : a :: dp' = dq := by
      refine digits_append_quote_pref (a :: dp') dq hdp hdq ?_
      rw [List.cons_append]
      exact hpre.2
    exact hne heq
  · refine quoted_not_infix_digits dq (a :: dp') hdq ?_
    rw [List.cons_append]
    exact hinf

/-- The quoted PID token of the row itself does occur in the row. -/
theorem quoted_pid_infix_self (dq : List Char) :
    ('\x22' :: (dq ++ ['\x22']) <:+:
     '\x22' :: 'n' :: 'o' :: 'd' :: 'e' :: '.' :: 'e' :: 'x' :: 'e' :: '\x22' :: ',' :: '\x22' ::
       (dq ++ ['\x22'])) :=
  ⟨['\x22','n','o','d','e','.','e','x','e','\x22',','], [], by simp⟩

/-- Character decomposition of the one-row CSV listing. -/
theorem csvListing_data (q : Nat) :
    (csvListing q).toList =
      '\x22' :: 'n' :: 'o' :: 'd' :: 'e' :: '.' :: 'e' :: 'x' :: 'e' :: '\x22' :: ',' :: '\x22' ::
        ((Nat.repr q).toList ++ ['\x22']) := rfl

/-- Character decomposition of the quoted pid pattern `"${pid}"`. -/
theorem pattern_data (p : Nat) :
    ("\x22" ++ toString ((p : Nat) : Int) ++ "\x22").toList =
      '\x22' :: ((Nat.repr p).toList ++ ['\x22']) := rfl

/-- The CSV listing is a truthy (non-empty) string. -/
theorem csvListing_ne_empty (q : Nat) : csvListing q ≠ "" := by
  intro h
  have hdata : (csvListing q).toList = [] := by rw [h]; rfl
  rw [csvListing_data q] at hdata
  cases hdata

/-! ## Claims -/

/-- C4: `getPlatformType` is idempotent within one process.  The first call
(on an empty cache, any ambient state `e1`) fixes the cache; any later call
sees a possibly changed or deleted kernel-identity source and environment
(`e2` arbitrary, only `process.platform` necessarily unchanged), yet returns
the first call's value, leaves the cache unchanged, and performs no
filesystem read, environment scan, or any other effect.  Since the cache is
returned unchanged, this single-step statement covers every call after the
first by iteration. -/
theorem getPlatformType_idempotent (e1 e2 : Env)
    (hp : e2.platform = e1.platform) :
    getPlatformType e2 (getPlatformType e1 none).2.1 =
      ((getPlatformType e1 none).1, (getPlatformType e1 none).2.1, []) :=
  getPlatformType_stable e1 e2 none hp

/-- Witness for C4: a first call on WSL2 kernel text probes the filesystem;
the second call, after `/proc/version` has been deleted, returns the same
value with no effects. -/
theorem getPlatformType_idempotent_witness :
    ({ sampleLinuxEnv with
        procVersion := some "Linux version 5.15.90.1-microsoft-standard-WSL2"
          : Env }).platform = sampleLinuxEnv.platform ∧
    getPlatformType sampleLinuxEnv
        (getPlatformType
          { sampleLinuxEnv with
            procVersion := some "Linux version 5.15.90.1-microsoft-standard-WSL2" }
          none).2.1 =
      ((getPlatformType
          { sampleLinuxEnv with
            procVersion := some "Linux version 5.15.90.1-microsoft-standard-WSL2" }
          none).1,
       (getPlatformType
          { sampleLinuxEnv with
            procVersion := some "Linux version 5.15.90.1-microsoft-standard-WSL2" }
          none).2.1,
       []) :=
  ⟨rfl,
   getPlatformType_idempotent
     { sampleLinuxEnv with
       procVersion := some "Linux version 5.15.90.1-microsoft-standard-WSL2" }
     sampleLinuxEnv rfl⟩

/-- C5: for every `pid ≤ 0`, `isProcessRunning` returns `false` with an
empty effect trace (no `tasklist` spawn, no signal delivery, no probe at
all) and leaves the cache untouched.  That the call never throws for any
integer pid is modelled by `isProcessRunning` being a total function into
`Bool`: every oracle outcome, including every exception an external probe
can raise, is mapped to a boolean result. -/
theorem isProcessRunning_nonpositive (e : Env) (w : World) (c : Option Bool)
    (pid : Int) (h : pid ≤ 0) :
    isProcessRunning e w c pid = (false, c, []) := by
  unfold isProcessRunning
  simp [h]

/-- Witness for C5 at `pid = 0`. -/
theorem isProcessRunning_nonpositive_witness :
    (0 : Int) ≤ 0 ∧
    isProcessRunning sampleLinuxEnv deadWorld none 0 = (false, none, []) :=
  ⟨by decide, isProcessRunning_nonpositive sampleLinuxEnv deadWorld none 0 (by decide)⟩

/-- C6: on Unix-like platforms the null-signal check reports `true` when the
delivery succeeds, `true` when it fails with `EPERM`, and `false` when it
fails with `ESRCH` or any other error code. -/
theorem isProcessRunningUnix_signal_outcomes (w : World) (pid : Int)
    (hpid : 0 < pid) :
    (w.kill pid (JSSignal.num 0) = KillOutcome.ok →
      (isProcessRunningUnix w pid).1 = true) ∧
    (w.kill pid (JSSignal.num 0) = KillOutcome.err "EPERM" →
      (isProcessRunningUnix w pid).1 = true) ∧
    (∀ code, code ≠ "EPERM" →
      w.kill pid (JSSignal.num 0) = KillOutcome.err code →
      (isProcessRunningUnix w pid).1 = false) := by
  refine ⟨fun h => ?_, fun h => ?_, fun code hc h => ?_⟩
  · unfold isProcessRunningUnix
    simp [h]
  · unfold isProcessRunningUnix
    simp [h]
  · unfold isProcessRunningUnix
    simp [h, hc]

/-- Witness for C6: all three outcomes at concrete worlds and `pid = 1`. -/
theorem isProcessRunningUnix_signal_outcomes_witness :
    (0 : Int) < 1 ∧
    (isProcessRunningUnix okKillWorld 1).1 = true ∧
    (isProcessRunningUnix epermWorld 1).1 = true ∧
    (isProcessRunningUnix deadWorld 1).1 = false :=
  ⟨by decide,
   (isProcessRunningUnix_signal_outcomes okKillWorld 1 (by decide)).1 rfl,
   (isProcessRunningUnix_signal_outcomes epermWorld 1 (by decide)).2.1 rfl,
   (isProcessRunningUnix_signal_outcomes deadWorld 1 (by decide)).2.2 "ESRCH"
     (by decide) rfl⟩

/-- C9: `getProcessInfo(pid)` returns `null` exactly when
`isProcessRunning(pid)` is `false`, and otherwise returns the record
`{pid, exists: true}` echoing the queried pid unchanged. -/
theorem getProcessInfo_iff_running (e : Env) (w : World) (c : Option Bool)
    (pid : Int) :
    ((getProcessInfo e w c pid).1 = none ↔
      (isProcessRunning e w c pid).1 = false) ∧
    ((isProcessRunning e w c pid).1 = true →
      (getProcessInfo e w c pid).1 = some (pid, true)) := by
  unfold getProcessInfo
  rcases h : (isProcessRunning e w c pid).1 <;> simp [h]

/-- Witness for C9: a live process (null signal succeeds) yields the record,
a dead one yields `null`. -/
theorem getProcessInfo_iff_running_witness :
    ((isProcessRunning sampleLinuxEnv okKillWorld none 1).1 = true ∧
      (getProcessInfo sampleLinuxEnv okKillWorld none 1).1 = some (1, true)) ∧
    ((getProcessInfo sampleLinuxEnv deadWorld none 1).1 = none ↔
      (isProcessRunning sampleLinuxEnv deadWorld none 1).1 = false) :=
  ⟨⟨by decide,
    (getProcessInfo_iff_running sampleLinuxEnv okKillWorld none 1).2 (by decide)⟩,
   (getProcessInfo_iff_running sampleLinuxEnv deadWorld none 1).1⟩

/-- C10: for every `pid ≤ 0` and every signal, `killProcess` returns `false`
with an empty effect trace: no signal is delivered and no external
termination utility (`taskkill`) is spawned. -/
theorem killProcess_nonpositive (e : Env) (w : World) (pid : Int)
    (signal : JSSignal) (h : pid ≤ 0) :
    killProcess e w pid signal = (false, []) := by
  unfold killProcess
  simp [h]

/-- Witness for C10 at `pid = -1` with the default `SIGTERM` signal. -/
theorem killProcess_nonpositive_witness :
    (-1 : Int) ≤ 0 ∧
    killProcess sampleLinuxEnv okKillWorld (-1) (JSSignal.name "SIGTERM") =
      (false, []) :=
  ⟨by decide,
   killProcess_nonpositive sampleLinuxEnv okKillWorld (-1)
     (JSSignal.name "SIGTERM") (by decide)⟩

/-- C1 counterexample: for an already-dead pid (`alive` constantly `false`,
i.e. `isProcessRunning(pid)` is `false` at every sample), the call
`waitForProcessExit(pid, 0)` returns `false`, not `true`: the loop guard
`Date.now() - startTime < timeoutMs` is evaluated before the first liveness
check and `0 < 0` fails, so the loop body never runs.  (It does return
immediately without sleeping.) -/
theorem waitForProcessExit_zero_timeout_counterexample :
    waitForProcessExit (fun _ => false) 0 = (false, []) :=
  rfl

/-- C1 (amended): for an already-dead pid, `waitForProcessExit(pid,
timeoutMs)` with any `timeoutMs > 0` returns `true` immediately, with no
sleep between polls; with `timeoutMs = 0` the loop guard fails before the
first liveness check and the call returns `false`, again without sleeping. -/
theorem waitForProcessExit_dead_process (alive : Nat → Bool) (timeoutMs : Nat)
    (htimeout : 0 < timeoutMs) (halive : ∀ t, alive t = false) :
    waitForProcessExit alive timeoutMs = (true, []) := by
  unfold waitForProcessExit
  show waitLoop alive timeoutMs 0 (timeoutMs + 1) = _
  rw [waitLoop]
  simp [htimeout, halive 0]

/-- Witness for C1's amended claim at the default five-second timeout. -/
theorem waitForProcessExit_dead_process_witness :
    0 < 5000 ∧ waitForProcessExit (fun _ => false) 5000 = (true, []) :=
  ⟨by decide,
   waitForProcessExit_dead_process (fun _ => false) 5000 (by decide)
     (fun _ => rfl)⟩

/-- C3: on Linux, kernel-identity text whose lower-cased form contains a
vendor marker (`microsoft` or `wsl`) and the version marker `wsl2` makes
detection yield the `wsl2` platform type; a vendor marker without `wsl2`
records `not-vm2` in the memoized flag (cache = `some false`), logs the
unsupported-WSL1 warning, and `getPlatformType` returns plain `linux`. -/
theorem isWSL2_kernel_markers (e : Env) (content : String)
    (hplat : e.platform = OSPlatform.linux)
    (hproc : e.procVersion = some content)
    (hvendor : (jsIncludes (jsToLower content) "microsoft" ||
      jsIncludes (jsToLower content) "wsl") = true) :
    (jsIncludes (jsToLower content) "wsl2" = true →
      (getPlatformType e none).1 = PlatformType.wsl2) ∧
    (jsIncludes (jsToLower content) "wsl2" = false →
      (getPlatformType e none).1 = PlatformType.linux ∧
      (getPlatformType e none).2.1 = some false ∧
      Effect.warn "WSL1 detected - WSL1 is not supported. Please upgrade to WSL2."
        ∈ (getPlatformType e none).2.2) := by
  constructor
  · intro h2
    rw [getPlatformType_val]
    unfold isWSL2 isWSL2Uncached
    simp [hplat, hproc, hvendor, h2]
  · intro h2
    refine ⟨?_, ?_, ?_⟩
    · rw [getPlatformType_val]
      unfold isWSL2 isWSL2Uncached
      simp [hplat, hproc, hvendor, h2, castPlatform]
    · rw [getPlatformType_cache_eq]
      unfold isWSL2 isWSL2Uncached
      simp [hplat, hproc, hvendor, h2]
    · show _ ∈ (getPlatformType e none).2.2
      unfold getPlatformType isWSL2 isWSL2Uncached
      simp [hplat, hproc, hvendor, h2]

/-- Witness for C3: a WSL2 kernel string classifies as `wsl2`; a WSL1 kernel
string (vendor marker, no `wsl2`) classifies as plain `linux`, caches
`not-vm2`, and logs the warning. -/
theorem isWSL2_kernel_markers_witness :
    (({ sampleLinuxEnv with
        procVersion := some "Linux version 5.15.90.1-microsoft-standard-WSL2"
          : Env }).platform = OSPlatform.linux ∧
      (getPlatformType
        { sampleLinuxEnv with
          procVersion := some "Linux version 5.15.90.1-microsoft-standard-WSL2" }
        none).1 = PlatformType.wsl2) ∧
    (({ sampleLinuxEnv with
        procVersion := some "Linux version 4.4.0-19041-Microsoft"
          : Env }).platform = OSPlatform.linux ∧
      (getPlatformType
        { sampleLinuxEnv with
          procVersion := some "Linux version 4.4.0-19041-Microsoft" }
        none).1 = PlatformType.linux ∧
      (getPlatformType
        { sampleLinuxEnv with
          procVersion := some "Linux version 4.4.0-19041-Microsoft" }
        none).2.1 = some false ∧
      Effect.warn "WSL1 detected - WSL1 is not supported. Please upgrade to WSL2."
        ∈ (getPlatformType
            { sampleLinuxEnv with
              procVersion := some "Linux version 4.4.0-19041-Microsoft" }
            none).2.2) :=
  ⟨⟨rfl,
    (isWSL2_kernel_markers
      { sampleLinuxEnv with
        procVersion := some "Linux version 5.15.90.1-microsoft-standard-WSL2" }
      "Linux version 5.15.90.1-microsoft-standard-WSL2" rfl rfl
      (by decide)).1 (by decide)⟩,
   ⟨rfl,
    (isWSL2_kernel_markers
      { sampleLinuxEnv with
        procVersion := some "Linux version 4.4.0-19041-Microsoft" }
      "Linux version 4.4.0-19041-Microsoft" rfl rfl (by decide)).2
      (by decide)⟩⟩

/-- C7: `resolveCommand` on the empty vector fails with the invalid-argument
error `No command provided` with an empty effect trace (no probe is spawned
before failing), and the empty vector is the only input on which it raises:
every non-empty vector yields an `Except.ok` plan. -/
theorem resolveCommand_empty_only_error (e : Env) (w : World) (c : Option Bool)
    (cmd : List String) :
    resolveCommand e w c [] = (Except.error "No command provided", c, []) ∧
    ((∃ msg, (resolveCommand e w c cmd).1 = Except.error msg) ↔ cmd = []) := by
  refine ⟨rfl, ?_⟩
  rcases cmd with _ | ⟨hd, tl⟩
  · simp [resolveCommand]
  · constructor
    · rintro ⟨msg, hmsg⟩
      obtain ⟨p, hp⟩ := resolveCommand_cons_ok e w c hd tl
      rw [hp] at hmsg
      cases hmsg
    · intro h
      cases h

/-- C2 counterexample: on a plain Linux host where `bash` is resolvable on
the search path (`which bash` exits 0 with non-blank output),
`resolveCommand(["bash"])` does not classify the invocation as a shell-routed
interactive session: it returns the direct-execution plan
`{command: "bash", args: [], useShell: false}`, not a plan with arguments
`-i -c "bash"` and `useShell: true` as the claim states. -/
theorem resolveCommand_bash_on_path_counterexample :
    (resolveCommand sampleLinuxEnv whichBashWorld none ["bash"]).1 =
      Except.ok ⟨"bash", [], false⟩ :=
  rfl

/-- C2 (amended): `resolveCommand(["bash"])` always classifies `bash` with no
arguments as an interactive shell session, and whenever the PATH probe does
not resolve `bash` (so the shell-routing branch is reached) on a Unix-like
platform (`linux`, `darwin`, or `wsl2`), the returned plan routes through the
user's shell with the interactive arguments `-i -c "bash"`.  When the probe
does resolve `bash`, the direct-execution plan is returned instead (see the
counterexample). -/
theorem resolveCommand_bash_interactive (e : Env) (w : World) (c : Option Bool)
    (hwhich : whichProbeFound e w "bash" = false)
    (hpt : (getPlatformType e c).1 = PlatformType.wsl2 ∨
      (getPlatformType e c).1 = PlatformType.linux ∨
      (getPlatformType e c).1 = PlatformType.darwin) :
    isInteractiveShellCommand "bash" [] = true ∧
    (resolveCommand e w c ["bash"]).1 =
      Except.ok ⟨(getUserShell e w c).1, ["-i", "-c", "bash"], true⟩ := by
  refine ⟨by decide, ?_⟩
  have hstb := getUserShell_platform_stable e w c
  simp only [resolveCommand, hwhich, Bool.false_eq_true, if_false]
  rw [hstb]
  have hnw : ¬ ((getPlatformType e c).1 = PlatformType.win32) := by
    rcases hpt with h | h | h <;> rw [h] <;> decide
  rw [if_neg hnw, if_pos hpt]
  have hic : (!isInteractiveShellCommand "bash" []) = false := by decide
  rw [hic]
  simp
  rfl

/-- Witness for C2's amended claim: on plain Linux with every probe failing,
`resolveCommand(["bash"])` routes through the discovered shell (`/bin/sh`
as the last-resort fallback) with the interactive arguments. -/
theorem resolveCommand_bash_interactive_witness :
    whichProbeFound sampleLinuxEnv deadWorld "bash" = false ∧
    ((getPlatformType sampleLinuxEnv none).1 = PlatformType.wsl2 ∨
      (getPlatformType sampleLinuxEnv none).1 = PlatformType.linux ∨
      (getPlatformType sampleLinuxEnv none).1 = PlatformType.darwin) ∧
    (isInteractiveShellCommand "bash" [] = true ∧
      (resolveCommand sampleLinuxEnv deadWorld none ["bash"]).1 =
        Except.ok ⟨(getUserShell sampleLinuxEnv deadWorld none).1,
          ["-i", "-c", "bash"], true⟩) :=
  ⟨rfl, Or.inr (Or.inl rfl),
   resolveCommand_bash_interactive sampleLinuxEnv deadWorld none rfl
     (Or.inr (Or.inl rfl))⟩

/-- C8: the Windows liveness check searches the `tasklist` CSV output for
the pid as an exact quoted token `"${pid}"`, so a pid `p` whose decimal
digits are a proper substring of another pid `q`'s digits (substring and
distinct, e.g. pid 12 against a listing containing only pid 212) is never
falsely reported as running, while the listed pid `q` itself is found. -/
theorem isProcessRunningWindows_exact_token (p q : Nat) (hp : 0 < p)
    (hq : 0 < q)
    (hsub : (Nat.repr p).toList <:+: (Nat.repr q).toList)
    (hne : Nat.repr p ≠ Nat.repr q) :
    (isProcessRunningWindows (tasklistWorld q) ((p : Nat) : Int)).1 = false ∧
    (isProcessRunningWindows (tasklistWorld q) ((q : Nat) : Int)).1 = true := by
  have hworld : ∀ pid : Int,
      (tasklistWorld q).spawnSync "tasklist" (tasklistArgs pid) =
        some ⟨some 0, some (csvListing q)⟩ := by
    intro pid
    simp [tasklistWorld, deadWorld]
  have htru : truthy (some (csvListing q)) = true := by
    unfold truthy
    simp [csvListing_ne_empty q]
  constructor
  · unfold isProcessRunningWindows
    rw [hworld]
    dsimp only
    rw [if_pos ⟨rfl, htru⟩]
    dsimp only [Option.getD]
    unfold jsIncludes
    apply decide_eq_false
    intro hin
    rw [pattern_data p, csvListing_data q] at hin
    exact quoted_pid_not_infix (Nat.repr p).toList (Nat.repr q).toList
      (repr_toList_ne_nil p) (repr_all_digits p) (repr_all_digits q)
      (fun hEq => hne (by apply String.ext; exact hEq)) hin
  · unfold isProcessRunningWindows
    rw [hworld]
    dsimp only
    rw [if_pos ⟨rfl, htru⟩]
    dsimp only [Option.getD]
    unfold jsIncludes
    apply decide_eq_true
    rw [pattern_data q, csvListing_data q]
    exact quoted_pid_infix_self (Nat.repr q).toList

/-- Witness for C8: pid 12 against the listing for pid 212 (the digits `12`
are a proper substring of `212`) is reported not running; pid 212 itself is
reported running. -/
theorem isProcessRunningWindows_exact_token_witness :
    0 < 12 ∧ 0 < 212 ∧
    ((Nat.repr 12).toList <:+: (Nat.repr 212).toList) ∧
    Nat.repr 12 ≠ Nat.repr 212 ∧
    ((isProcessRunningWindows (tasklistWorld 212) ((12 : Nat) : Int)).1 = false ∧
     (isProcessRunningWindows (tasklistWorld 212) ((212 : Nat) : Int)).1 = true) :=
  ⟨by decide, by decide, by decide, by decide,
   isProcessRunningWindows_exact_token 12 212 (by decide) (by decide)
     (by decide) (by decide)⟩

end ProcessUtils
